import Mathlib

/-!
Verification development for the arbitrage execution and risk engine.

Python floats are modelled as rationals, Python dicts as association
lists, and optional values as `Option`.  Each definition mirrors one
function of the source; the Python file and line ranges are cited in
the doc comments.  Python truthiness (`if x:` treating `None`, `0.0`
and the empty list as false) is modelled explicitly where the source
relies on it.
-/

/-- ASCII lowercase, the executable model of Python `str.lower()` on
the venue-name strings the source compares. -/
def asciiLowerChar (c : Char) : Char :=
  if 65 ≤ c.toNat ∧ c.toNat ≤ 90 then Char.ofNat (c.toNat + 32) else c

/-- Lowercase a string character by character (model of `str.lower()`). -/
def pyLower (s : String) : String :=
  ⟨s.data.map asciiLowerChar⟩

/-- Order-book price level, `profit_calculator.py` lines 42-46. -/
structure PriceLevel where
  price : ℚ
  quantity : ℚ
deriving DecidableEq

/-- The book-walking loop shared by `calculate_slippage_cost`
(`profit_calculator.py` lines 198-207) and `estimate_slippage`
(`enhanced_fee_calculator.py` lines 253-263): levels are `(price, size)`
pairs, the accumulator is `(total_filled, weighted_price_sum)`, and
the loop breaks once `total_filled >= order_size`. -/
def fillWalk (orderSize : ℚ) : List (ℚ × ℚ) → ℚ → ℚ → ℚ × ℚ
  | [], tf, wp => (tf, wp)
  | l :: ls, tf, wp =>
    if tf ≥ orderSize then (tf, wp)
    else
      let fill := min l.2 (orderSize - tf)
      fillWalk orderSize ls (tf + fill) (wp + l.1 * fill)

/-- The per-level fill amounts the walk consumes, used to state the
execution-price bound: entry `(price, fill)` records how much of each
level the loop took. -/
def consumedFills (orderSize : ℚ) : List (ℚ × ℚ) → ℚ → List (ℚ × ℚ)
  | [], _ => []
  | l :: ls, tf =>
    if tf ≥ orderSize then []
    else
      let fill := min l.2 (orderSize - tf)
      (l.1, fill) :: consumedFills orderSize ls (tf + fill)

/-- `ProfitCalculator` state, `profit_calculator.py` lines 72-84:
the configured margin, and the gas price the RPC would return
(`None` when no Web3 connection is available). -/
structure ProfitCalculator where
  min_profit_margin : ℚ
  fetched_gas_price_gwei : Option ℚ
deriving DecidableEq

namespace ProfitCalculator

/-- `get_polygon_gas_cost_usd`, `profit_calculator.py` lines 90-118:
gas units times gas price (Gwei) converted to MATIC and then USD at an
assumed MATIC price of 1 USD; a missing gas price falls back to the
fetched value or the 30 Gwei default. -/
def get_polygon_gas_cost_usd (c : ProfitCalculator) (gas_units : ℚ)
    (gas_price_gwei : Option ℚ) : ℚ :=
  let gp : ℚ :=
    match gas_price_gwei with
    | some g => g
    | none =>
      match c.fetched_gas_price_gwei with
      | some g => g
      | none => 30
  let matic_price_usd : ℚ := 1
  let cost_wei := gas_units * (gp * 10 ^ 9)
  let cost_matic := cost_wei / 10 ^ 18
  cost_matic * matic_price_usd

/-- `calculate_polymarket_fees`, `profit_calculator.py` lines 137-150:
`position_size_usd * fee_rate` (default taker rate 2 percent). -/
def calculate_polymarket_fees (position_size_usd : ℚ)
    (fee_rate : ℚ := 2 / 100) : ℚ :=
  position_size_usd * fee_rate

/-- `calculate_kalshi_fees`, `profit_calculator.py` lines 152-171:
0.5 percent at price extremes (below 20 or above 80 cents),
1.5 percent in the middle. -/
def calculate_kalshi_fees (position_size_usd : ℚ) (contract_price : ℚ) : ℚ :=
  if contract_price < 20 ∨ contract_price > 80 then
    position_size_usd * (5 / 1000)
  else
    position_size_usd * (15 / 1000)

/-- `calculate_slippage_cost`, `profit_calculator.py` lines 177-217:
walks the book accumulating fills, returns the size-weighted average
execution price and the slippage in USD; an empty book yields the
conservative default `(1.0, 0.5 percent of order size)`.  The `side`
parameter of the source is unused by its body and is omitted. -/
def calculate_slippage_cost (order_book : List PriceLevel)
    (order_size_usd : ℚ) : ℚ × ℚ :=
  match order_book with
  | [] => (1, order_size_usd * (5 / 1000))
  | l0 :: _ =>
    let r := fillWalk order_size_usd
      (order_book.map fun l => (l.price, l.quantity)) 0 0
    let avg_price := if r.1 > 0 then r.2 / r.1 else 1
    let best_price := l0.price
    let slippage_pct := if best_price ≠ 0 then |avg_price - best_price| / best_price else 0
    (avg_price, order_size_usd * slippage_pct)

/-- `TradeOpportunity`, `profit_calculator.py` lines 48-64 (the
display-only `reasoning` string is omitted). -/
structure TradeOpportunity where
  market_a_id : String
  market_a_price : ℚ
  market_a_source : String
  market_b_id : String
  market_b_price : ℚ
  market_b_source : String
  position_size : ℚ
  gross_spread : ℚ
  gas_cost_usd : ℚ
  fee_cost_usd : ℚ
  net_profit_usd : ℚ
  net_profit_pct : ℚ
  is_profitable : Bool
deriving DecidableEq

/-- `check_arbitrage_profitability`, `profit_calculator.py` lines
223-319.  Slippage uses each order book when one is supplied and
non-empty (Python truthiness of the list), else the conservative
0.5 percent default; platform fees are taken from the venue of
market A only, as in the source; gas is a single 150000-unit
transaction. -/
def check_arbitrage_profitability (c : ProfitCalculator)
    (market_a_id : String) (market_a_price : ℚ) (market_a_source : String)
    (market_a_orderbook : Option (List PriceLevel))
    (market_b_id : String) (market_b_price : ℚ) (market_b_source : String)
    (market_b_orderbook : Option (List PriceLevel))
    (position_size_usd : ℚ) (gas_price_gwei : Option ℚ) : TradeOpportunity :=
  let slip_a : ℚ × ℚ :=
    match market_a_orderbook with
    | some (l :: ls) => calculate_slippage_cost (l :: ls) position_size_usd
    | _ => (market_a_price, position_size_usd * (5 / 1000))
  let slip_b : ℚ × ℚ :=
    match market_b_orderbook with
    | some (l :: ls) => calculate_slippage_cost (l :: ls) position_size_usd
    | _ => (market_b_price, position_size_usd * (5 / 1000))
  let polymarket_fees : ℚ :=
    if pyLower market_a_source = "polymarket" then
      calculate_polymarket_fees position_size_usd
    else 0
  let kalshi_fees : ℚ :=
    if pyLower market_a_source = "kalshi" then
      calculate_kalshi_fees position_size_usd (market_a_price * 100)
    else 0
  let total_fees := polymarket_fees + kalshi_fees
  let total_slippage := slip_a.2 + slip_b.2
  let gas_cost := c.get_polygon_gas_cost_usd 150000 gas_price_gwei
  let gross_spread := |market_a_price - market_b_price| * position_size_usd
  let total_costs := total_fees + total_slippage + gas_cost
  let net_profit := gross_spread - total_costs
  let net_profit_pct := if position_size_usd > 0 then net_profit / position_size_usd else 0
  let is_profitable := decide (net_profit_pct ≥ c.min_profit_margin)
  { market_a_id := market_a_id
    market_a_price := market_a_price
    market_a_source := market_a_source
    market_b_id := market_b_id
    market_b_price := market_b_price
    market_b_source := market_b_source
    position_size := position_size_usd
    gross_spread := gross_spread
    gas_cost_usd := gas_cost
    fee_cost_usd := total_fees
    net_profit_usd := net_profit
    net_profit_pct := net_profit_pct
    is_profitable := is_profitable }

end ProfitCalculator

/-- `OrderbookLevel`, `clob_orderbook_client.py` lines 48-53. -/
structure OrderbookLevel where
  price : ℚ
  size : ℚ
  timestamp : ℚ
deriving DecidableEq

/-- `OrderbookSnapshot`, `clob_orderbook_client.py` lines 56-69. -/
structure OrderbookSnapshot where
  market_id : String
  condition_id : String
  token_id : String
  bids : List OrderbookLevel
  asks : List OrderbookLevel
  best_bid : Option ℚ
  best_ask : Option ℚ
  spread : Option ℚ
  spread_pct : Option ℚ
  timestamp : ℚ
  mid_price : Option ℚ
deriving DecidableEq

/-- `GasEstimate`, `enhanced_fee_calculator.py` lines 42-49. -/
structure GasEstimate where
  gas_units : ℚ
  gas_price_gwei : ℚ
  gas_cost_matic : ℚ
  gas_cost_usd : ℚ
  matic_price_usd : ℚ
deriving DecidableEq

/-- `SlippageEstimate`, `enhanced_fee_calculator.py` lines 52-59. -/
structure SlippageEstimate where
  best_price : ℚ
  execution_price : ℚ
  slippage_pct : ℚ
  slippage_usd : ℚ
  available_liquidity : ℚ
deriving DecidableEq

/-- `TransactionCosts`, `enhanced_fee_calculator.py` lines 62-69. -/
structure TransactionCosts where
  platform_fees_usd : ℚ
  gas_costs_usd : ℚ
  slippage_costs_usd : ℚ
  total_costs_usd : ℚ
  total_costs_pct : ℚ
deriving DecidableEq

/-- `ProfitabilityAnalysis`, `enhanced_fee_calculator.py` lines 72-84
(the display-only `recommendation` and `risk_factors` strings are
omitted). -/
structure ProfitabilityAnalysis where
  gross_spread_usd : ℚ
  gross_spread_pct : ℚ
  transaction_costs : TransactionCosts
  net_profit_usd : ℚ
  net_profit_pct : ℚ
  is_profitable : Bool
  break_even_spread_pct : ℚ
  min_required_spread_pct : ℚ
deriving DecidableEq

/-- `EnhancedFeeCalculator` state, `enhanced_fee_calculator.py`
lines 99-120: configured margin, MATIC price (constructor default 1.0
when none supplied), and the gas price the RPC would return (`None`
when no Web3 connection is available). -/
structure EnhancedFeeCalculator where
  min_profit_margin_pct : ℚ
  matic_price_usd : ℚ
  fetched_gas_price_gwei : Option ℚ
deriving DecidableEq

namespace EnhancedFeeCalculator

/-- `estimate_gas_cost`, `enhanced_fee_calculator.py` lines 122-151.
The fallback `self._fetch_gas_price_gwei() or 30.0` treats both `None`
and `0.0` as missing (Python falsiness). -/
def estimate_gas_cost (c : EnhancedFeeCalculator) (gas_units : ℚ)
    (gas_price_gwei : Option ℚ) : GasEstimate :=
  let gp : ℚ :=
    match gas_price_gwei with
    | some g => g
    | none =>
      match c.fetched_gas_price_gwei with
      | some g => if g = 0 then 30 else g
      | none => 30
  let cost_wei := gas_units * (gp * 10 ^ 9)
  let cost_matic := cost_wei / 10 ^ 18
  let cost_usd := cost_matic * c.matic_price_usd
  { gas_units := gas_units
    gas_price_gwei := gp
    gas_cost_matic := cost_matic
    gas_cost_usd := cost_usd
    matic_price_usd := c.matic_price_usd }

/-- `calculate_platform_fees`, `enhanced_fee_calculator.py` lines
166-211: polymarket charges 2 percent on winnings only; kalshi is
price-bracketed (0.5 percent at extremes, 1.5 percent in the middle,
midpoint default when no contract price is given); pnp charges
1 percent; an unknown platform falls back to 1 percent. -/
def calculate_platform_fees (position_size_usd : ℚ) (platform : String)
    (contract_price : Option ℚ := none) (is_winner : Bool := true) : ℚ :=
  let platform_lower := pyLower platform
  if platform_lower = "polymarket" then
    if is_winner then position_size_usd * (2 / 100) else 0
  else if platform_lower = "kalshi" then
    let cp := contract_price.getD (1 / 2)
    let contract_price_cents := cp * 100
    if contract_price_cents < 20 ∨ contract_price_cents > 80 then
      position_size_usd * (5 / 1000)
    else
      position_size_usd * (15 / 1000)
  else if platform_lower = "pnp" then
    position_size_usd * (1 / 100)
  else
    position_size_usd * (1 / 100)

/-- The conservative no-data slippage estimate used by
`estimate_slippage` (`enhanced_fee_calculator.py` lines 230-238 and
243-250). -/
def defaultSlippage (order_size_usd : ℚ) : SlippageEstimate :=
  { best_price := 1 / 2
    execution_price := 5025 / 10000
    slippage_pct := 1 / 2
    slippage_usd := order_size_usd * (5 / 1000)
    available_liquidity := 0 }

/-- `estimate_slippage`, `enhanced_fee_calculator.py` lines 213-280.
The guard `if not levels or not best_price` treats an empty level
list, a missing best price and a zero best price as no data (Python
falsiness); otherwise the book is walked and the slippage percent is
the relative distance of the weighted execution price from the best
price. -/
def estimate_slippage (_c : EnhancedFeeCalculator)
    (orderbook : Option OrderbookSnapshot) (order_size_usd : ℚ)
    (side : String) : SlippageEstimate :=
  match orderbook with
  | none => defaultSlippage order_size_usd
  | some ob =>
    let levels := if side = "BUY" then ob.asks else ob.bids
    let bestOpt := if side = "BUY" then ob.best_ask else ob.best_bid
    match levels, bestOpt with
    | [], _ => defaultSlippage order_size_usd
    | _, none => defaultSlippage order_size_usd
    | l :: ls, some best_price =>
      if best_price = 0 then defaultSlippage order_size_usd
      else
        let available_liquidity := ((l :: ls).map fun lv => lv.size).sum
        let r := fillWalk order_size_usd
          ((l :: ls).map fun lv => (lv.price, lv.size)) 0 0
        let execution_price := if r.1 = 0 then best_price else r.2 / r.1
        let slippage_pct := if r.1 = 0 then 0 else |execution_price - best_price| / best_price * 100
        let slippage_usd := order_size_usd * (slippage_pct / 100)
        { best_price := best_price
          execution_price := execution_price
          slippage_pct := slippage_pct
          slippage_usd := slippage_usd
          available_liquidity := available_liquidity }

/-- `calculate_transaction_costs`, `enhanced_fee_calculator.py` lines
282-340: the platform fees of both legs, one gas estimate at doubled
gas units (two legs), and the slippage of both legs. -/
def calculate_transaction_costs (c : EnhancedFeeCalculator)
    (market_a_orderbook market_b_orderbook : Option OrderbookSnapshot)
    (position_size_usd : ℚ) (market_a_platform market_b_platform : String)
    (market_a_price market_b_price : Option ℚ) : TransactionCosts :=
  let fee_a := calculate_platform_fees position_size_usd market_a_platform
    market_a_price true
  let fee_b := calculate_platform_fees position_size_usd market_b_platform
    market_b_price true
  let platform_fees := fee_a + fee_b
  let gas_estimate := c.estimate_gas_cost (150000 * 2) none
  let gas_costs := gas_estimate.gas_cost_usd
  let slippage_a := c.estimate_slippage market_a_orderbook position_size_usd "BUY"
  let slippage_b := c.estimate_slippage market_b_orderbook position_size_usd "SELL"
  let slippage_costs := slippage_a.slippage_usd + slippage_b.slippage_usd
  let total_costs := platform_fees + gas_costs + slippage_costs
  let total_costs_pct := if position_size_usd > 0 then total_costs / position_size_usd * 100 else 0
  { platform_fees_usd := platform_fees
    gas_costs_usd := gas_costs
    slippage_costs_usd := slippage_costs
    total_costs_usd := total_costs
    total_costs_pct := total_costs_pct }

/-- `analyze_profitability`, `enhanced_fee_calculator.py` lines
342-423.  Note the source divides by `max(market_a_price,
market_b_price)` without a guard; rational division by zero is total
in the model, and theorems about produced analyses assume that
maximum is nonzero. -/
def analyze_profitability (c : EnhancedFeeCalculator)
    (market_a_price market_b_price : ℚ)
    (market_a_orderbook market_b_orderbook : Option OrderbookSnapshot)
    (position_size_usd : ℚ)
    (market_a_platform market_b_platform : String) : ProfitabilityAnalysis :=
  let gross_spread := |market_a_price - market_b_price| * position_size_usd
  let gross_spread_pct :=
    |market_a_price - market_b_price| / max market_a_price market_b_price * 100
  let transaction_costs := c.calculate_transaction_costs
    market_a_orderbook market_b_orderbook position_size_usd
    market_a_platform market_b_platform
    (some market_a_price) (some market_b_price)
  let net_profit := gross_spread - transaction_costs.total_costs_usd
  let net_profit_pct := if position_size_usd > 0 then net_profit / position_size_usd * 100 else 0
  let break_even_spread_pct := transaction_costs.total_costs_pct
  let min_required_spread_pct := break_even_spread_pct + c.min_profit_margin_pct
  let is_profitable := decide (net_profit_pct ≥ c.min_profit_margin_pct)
  { gross_spread_usd := gross_spread
    gross_spread_pct := gross_spread_pct
    transaction_costs := transaction_costs
    net_profit_usd := net_profit
    net_profit_pct := net_profit_pct
    is_profitable := is_profitable
    break_even_spread_pct := break_even_spread_pct
    min_required_spread_pct := min_required_spread_pct }

end EnhancedFeeCalculator

/-- `PositionStatus`, `risk_manager.py` lines 22-27. -/
inductive PositionStatus where
  | PENDING
  | OPEN
  | CLOSED
  | FAILED
deriving DecidableEq

/-- `StrategyType`, `risk_manager.py` lines 30-33 (the enum in
`arbitrage_strategies.py` lines 30-33 has the same two members). -/
inductive StrategyType where
  | MARKET_REBALANCING
  | COMBINATORIAL
deriving DecidableEq

/-- `Position`, `risk_manager.py` lines 36-53 (the free-form
`metadata` dict is omitted). -/
structure Position where
  position_id : String
  market_id : String
  market_b_id : Option String
  strategy_type : StrategyType
  side : String
  size_usd : ℚ
  entry_price : ℚ
  exit_price : Option ℚ
  status : PositionStatus
  opened_at : ℚ
  closed_at : Option ℚ
  pnl_usd : ℚ := 0
  pnl_pct : ℚ := 0
  fees_paid_usd : ℚ := 0
deriving DecidableEq

/-- `CapitalAllocation`, `risk_manager.py` lines 56-64. -/
structure CapitalAllocation where
  opportunity_id : String
  strategy_type : StrategyType
  allocated_usd : ℚ
  max_allocation_usd : ℚ
  allocation_pct : ℚ
  timestamp : ℚ
deriving DecidableEq

/-- `RiskManager` state, `risk_manager.py` lines 89-112: configuration
limits, the positions dict (an association list keyed by position id)
and the list of granted allocations.  The PnL history is not needed by
the claims about allocation and is omitted. -/
structure RiskManager where
  total_capital_usd : ℚ
  max_position_size_pct : ℚ
  max_single_market_exposure_pct : ℚ
  max_total_exposure_pct : ℚ
  positions : List (String × Position)
  capital_allocations : List CapitalAllocation
deriving DecidableEq

/-- The outcome of `allocate_capital`: the source returns the
allocation on approval and `None` after one of two distinct
warning-logged rejections (`risk_manager.py` lines 186-191 and
195-199), so the rejection reason is observable. -/
inductive AllocResult where
  | approved (a : CapitalAllocation)
  | rejectedCapacity
  | rejectedPositionSize
deriving DecidableEq

namespace RiskManager

/-- `get_total_exposure`, `risk_manager.py` lines 327-334: sum of
`size_usd` over positions whose status is OPEN. -/
def get_total_exposure (rm : RiskManager) : ℚ :=
  ((rm.positions.filter fun p => p.2.status = PositionStatus.OPEN).map
    fun p => p.2.size_usd).sum

/-- `allocate_capital`, `risk_manager.py` lines 164-216: first the
remaining-exposure-capacity check, then the position-size-limit
check; on approval the allocation is appended to
`capital_allocations` and nothing else in the state changes.
`datetime.now()` is passed in as `now`. -/
def allocate_capital (rm : RiskManager) (opportunity_id : String)
    (strategy_type : StrategyType) (requested_amount_usd : ℚ)
    (now : ℚ) : AllocResult × RiskManager :=
  let current_exposure := rm.get_total_exposure
  let max_total_exposure := rm.total_capital_usd * (rm.max_total_exposure_pct / 100)
  let remaining_capacity := max_total_exposure - current_exposure
  if requested_amount_usd > remaining_capacity then
    (AllocResult.rejectedCapacity, rm)
  else
    let max_position := rm.total_capital_usd * (rm.max_position_size_pct / 100)
    if requested_amount_usd > max_position then
      (AllocResult.rejectedPositionSize, rm)
    else
      let allocation : CapitalAllocation :=
        { opportunity_id := opportunity_id
          strategy_type := strategy_type
          allocated_usd := requested_amount_usd
          max_allocation_usd := max_position
          allocation_pct := requested_amount_usd / rm.total_capital_usd * 100
          timestamp := now }
      (AllocResult.approved allocation,
        { rm with capital_allocations := rm.capital_allocations ++ [allocation] })

/-- `calculate_position_size`, `risk_manager.py` lines 116-162.  The
`opportunity` argument of the source is unused by its body and is
omitted.  The guards `if max_allocation_usd:` and
`if available_liquidity:` treat `None` and `0.0` as absent (Python
falsiness). -/
def calculate_position_size (rm : RiskManager)
    (available_liquidity : Option ℚ) (max_allocation_usd : Option ℚ) : ℚ :=
  let max_position := rm.total_capital_usd * (rm.max_position_size_pct / 100)
  let max_position :=
    match max_allocation_usd with
    | some m => if m = 0 then max_position else min max_position m
    | none => max_position
  let max_position :=
    match available_liquidity with
    | some liq => if liq = 0 then max_position else min max_position (liq * (1 / 2))
    | none => max_position
  let current_exposure := rm.get_total_exposure
  let max_total_exposure := rm.total_capital_usd * (rm.max_total_exposure_pct / 100)
  let remaining_capacity := max_total_exposure - current_exposure
  if remaining_capacity ≤ 0 then 0
  else min max_position remaining_capacity

/-- `open_position`, `risk_manager.py` lines 218-266: creates an OPEN
position and stores it in the positions dict.  `datetime.now()` is
passed in as `now`; a dict insert on a fresh key is modelled as
prepending to the association list. -/
def open_position (rm : RiskManager) (position_id market_id : String)
    (strategy_type : StrategyType) (side : String)
    (size_usd entry_price : ℚ) (market_b_id : Option String)
    (now : ℚ) : Position × RiskManager :=
  let position : Position :=
    { position_id := position_id
      market_id := market_id
      market_b_id := market_b_id
      strategy_type := strategy_type
      side := side
      size_usd := size_usd
      entry_price := entry_price
      exit_price := none
      status := PositionStatus.OPEN
      opened_at := now
      closed_at := none }
  (position, { rm with positions := (position_id, position) :: rm.positions })

end RiskManager

/-- `OrderStatus`, `atomic_executor.py` lines 32-39. -/
inductive OrderStatus where
  | PENDING
  | SUBMITTED
  | PARTIALLY_FILLED
  | FILLED
  | CANCELLED
  | FAILED
deriving DecidableEq

/-- `OrderSide`, `atomic_executor.py` lines 42-45. -/
inductive OrderSide where
  | BUY
  | SELL
deriving DecidableEq

/-- `Order`, `atomic_executor.py` lines 48-58. -/
structure Order where
  market_id : String
  side : OrderSide
  price : ℚ
  size : ℚ
  source : String
  order_id : Option String := none
  status : OrderStatus := OrderStatus.PENDING
  filled_amount : ℚ := 0
deriving DecidableEq

/-- `ArbitrageExecution`, `atomic_executor.py` lines 61-71.  The legs
are mutated in place by the executor in the source; the model stores
their final values. -/
structure ArbitrageExecution where
  leg1 : Order
  leg2 : Order
  leg1_filled_at : Option ℚ := none
  leg2_filled_at : Option ℚ := none
  leg1_order_id : Option String := none
  leg2_order_id : Option String := none
  is_complete : Bool := false
  net_pnl : ℚ := 0
deriving DecidableEq

/-- Outcome of one `asyncio.wait_for(self._wait_for_order_fill(...))`
call: the fill listener returned `True`, returned `False`, or the
wait timed out (`atomic_executor.py` lines 146-179 and 199-237). -/
inductive FillWaitOutcome where
  | filled
  | notFilled
  | timedOut
deriving DecidableEq

/-- Behaviour of the venue adapter and the caller-supplied callbacks
during one run of `execute_arbitrage_legs`.  `_submit_order` is
"replace with real API call" in the source, so a submission either
yields an external order id or raises (`none`); the callbacks are
optional caller code that may raise (an absent callback behaves like
one that does not raise).  `_cancel_order` as written
(`atomic_executor.py` lines 267-274) always returns `True` and cannot
raise, so it has no outcome field.  `fill_time1`/`fill_time2` are the
event-loop clock readings taken on fills. -/
structure VenueEnv where
  submit1 : Option String
  wait1 : FillWaitOutcome
  fill_time1 : ℚ
  cb1_submitted_raises : Bool
  cb1_filled_raises : Bool
  submit2 : Option String
  wait2 : FillWaitOutcome
  fill_time2 : ℚ
  cb2_submitted_raises : Bool
  cb2_filled_raises : Bool
deriving DecidableEq

/-- Observable venue-adapter calls made during one execution:
`submit isLeg2 order` records a `_submit_order` call (tagged by which
leg object was passed) and `cancel oid` records a `_cancel_order`
call. -/
inductive ExecEvent where
  | submit (isLeg2 : Bool) (o : Order)
  | cancel (order_id : String)
deriving DecidableEq

namespace AtomicExecutor

/-- `execute_arbitrage_legs`, `atomic_executor.py` lines 91-242,
as a function of the adapter/callback behaviour `env`.  Every `await`
of an external call is resolved by `env`; a raise anywhere inside the
outer `try` lands in the `except Exception` handler (lines 239-242),
which sets `is_complete = False` and returns the execution as
mutated so far.  The returned list is the trace of adapter calls. -/
def execute_arbitrage_legs (env : VenueEnv) (leg1 leg2 : Order) :
    ArbitrageExecution × List ExecEvent :=
  -- line 120: execution = ArbitrageExecution(leg1=leg1, leg2=leg2)
  match env.submit1 with
  | none =>
    -- _submit_order(leg1) raised: outer handler returns the execution
    ({ leg1 := leg1, leg2 := leg2, is_complete := false },
      [ExecEvent.submit false leg1])
  | some leg1_order_id =>
    -- lines 133-136
    let leg1a := { leg1 with order_id := some leg1_order_id,
                             status := OrderStatus.SUBMITTED }
    let trace0 := [ExecEvent.submit false leg1]
    if env.cb1_submitted_raises then
      ({ leg1 := leg1a, leg2 := leg2, leg1_order_id := some leg1_order_id,
         is_complete := false }, trace0)
    else
      match env.wait1 with
      | FillWaitOutcome.timedOut =>
        -- lines 168-179: cancel leg1, mark cancelled, abort
        let leg1b := { leg1a with status := OrderStatus.CANCELLED }
        ({ leg1 := leg1b, leg2 := leg2, leg1_order_id := some leg1_order_id,
           is_complete := false },
          trace0 ++ [ExecEvent.cancel leg1_order_id])
      | FillWaitOutcome.notFilled =>
        -- lines 163-166
        ({ leg1 := leg1a, leg2 := leg2, leg1_order_id := some leg1_order_id,
           is_complete := false }, trace0)
      | FillWaitOutcome.filled =>
        -- lines 153-161
        let leg1b := { leg1a with status := OrderStatus.FILLED,
                                  filled_amount := leg1.size }
        if env.cb1_filled_raises then
          ({ leg1 := leg1b, leg2 := leg2,
             leg1_filled_at := some env.fill_time1,
             leg1_order_id := some leg1_order_id,
             is_complete := false }, trace0)
        else
          -- lines 181-191: submit leg2
          let trace1 := trace0 ++ [ExecEvent.submit true leg2]
          match env.submit2 with
          | none =>
            ({ leg1 := leg1b, leg2 := leg2,
               leg1_filled_at := some env.fill_time1,
               leg1_order_id := some leg1_order_id,
               is_complete := false }, trace1)
          | some leg2_order_id =>
            let leg2a := { leg2 with order_id := some leg2_order_id,
                                     status := OrderStatus.SUBMITTED }
            if env.cb2_submitted_raises then
              ({ leg1 := leg1b, leg2 := leg2a,
                 leg1_filled_at := some env.fill_time1,
                 leg1_order_id := some leg1_order_id,
                 leg2_order_id := some leg2_order_id,
                 is_complete := false }, trace1)
            else
              match env.wait2 with
              | FillWaitOutcome.timedOut =>
                -- lines 233-237: unhedged, abort
                ({ leg1 := leg1b, leg2 := leg2a,
                   leg1_filled_at := some env.fill_time1,
                   leg1_order_id := some leg1_order_id,
                   leg2_order_id := some leg2_order_id,
                   is_complete := false }, trace1)
              | FillWaitOutcome.notFilled =>
                -- lines 227-231: unhedged, abort
                ({ leg1 := leg1b, leg2 := leg2a,
                   leg1_filled_at := some env.fill_time1,
                   leg1_order_id := some leg1_order_id,
                   leg2_order_id := some leg2_order_id,
                   is_complete := false }, trace1)
              | FillWaitOutcome.filled =>
                -- lines 205-225
                let leg2b := { leg2a with status := OrderStatus.FILLED,
                                          filled_amount := leg2.size }
                if env.cb2_filled_raises then
                  ({ leg1 := leg1b, leg2 := leg2b,
                     leg1_filled_at := some env.fill_time1,
                     leg2_filled_at := some env.fill_time2,
                     leg1_order_id := some leg1_order_id,
                     leg2_order_id := some leg2_order_id,
                     is_complete := false }, trace1)
                else
                  ({ leg1 := leg1b, leg2 := leg2b,
                     leg1_filled_at := some env.fill_time1,
                     leg2_filled_at := some env.fill_time2,
                     leg1_order_id := some leg1_order_id,
                     leg2_order_id := some leg2_order_id,
                     is_complete := true,
                     net_pnl := (leg2.price - leg1.price) * leg1.size }, trace1)

end AtomicExecutor

/-- `RebalancingType`, `arbitrage_strategies.py` lines 36-39. -/
inductive RebalancingType where
  | SPLIT
  | MERGE
deriving DecidableEq

/-- `RebalancingOpportunity`, `arbitrage_strategies.py` lines 42-54. -/
structure RebalancingOpportunity where
  market_id : String
  yes_price : ℚ
  no_price : ℚ
  price_sum : ℚ
  deviation : ℚ
  rebalancing_type : RebalancingType
  expected_profit_pct : ℚ
  orderbook : Option OrderbookSnapshot
  timestamp : ℚ
deriving DecidableEq

namespace MarketRebalancingStrategy

/-- `MarketRebalancingStrategy.detect_opportunity`,
`arbitrage_strategies.py` lines 106-182: returns `None` when the
deviation percent is below the minimum; otherwise builds the SPLIT
(sum below 1) or MERGE (sum above 1) opportunity, additionally
filtered by the fee-calculator profitability check when an orderbook
is supplied.  `datetime.now().timestamp()` is passed in as `now`. -/
def detect_opportunity (min_deviation_pct : ℚ)
    (fee_calculator : EnhancedFeeCalculator) (market_id : String)
    (yes_price no_price : ℚ) (orderbook : Option OrderbookSnapshot)
    (now : ℚ) : Option RebalancingOpportunity :=
  let price_sum := yes_price + no_price
  let deviation := |price_sum - 1|
  let deviation_pct := deviation * 100
  if deviation_pct < min_deviation_pct then none
  else
    let rebalancing_type :=
      if price_sum < 1 then RebalancingType.SPLIT else RebalancingType.MERGE
    let expected_profit_pct := deviation_pct
    match orderbook with
    | some ob =>
      let analysis := fee_calculator.analyze_profitability yes_price no_price
        (some ob) none 100 "polymarket" "polymarket"
      if analysis.is_profitable = false then none
      else some
        { market_id := market_id
          yes_price := yes_price
          no_price := no_price
          price_sum := price_sum
          deviation := deviation
          rebalancing_type := rebalancing_type
          expected_profit_pct := analysis.net_profit_pct
          orderbook := some ob
          timestamp := now }
    | none => some
        { market_id := market_id
          yes_price := yes_price
          no_price := no_price
          price_sum := price_sum
          deviation := deviation
          rebalancing_type := rebalancing_type
          expected_profit_pct := expected_profit_pct
          orderbook := none
          timestamp := now }

end MarketRebalancingStrategy

/-! Theorems. -/

/-- C2: whenever `allocate_capital` approves an allocation, the
current total open exposure plus the allocated amount stays within
`max_total_exposure_pct / 100 * total_capital_usd`. -/
theorem C2_allocate_respects_exposure_cap
    (rm : RiskManager) (oid : String) (st : StrategyType) (req now : ℚ)
    (a : CapitalAllocation) (rm2 : RiskManager)
    (h : rm.allocate_capital oid st req now = (AllocResult.approved a, rm2)) :
    rm.get_total_exposure + a.allocated_usd ≤
      rm.max_total_exposure_pct / 100 * rm.total_capital_usd := by
  simp only [RiskManager.allocate_capital] at h
  split_ifs at h with h1 h2
  · exact absurd h (by simp)
  · exact absurd h (by simp)
  · rw [Prod.mk.injEq, AllocResult.approved.injEq] at h
    obtain ⟨ha, -⟩ := h
    subst ha
    push_neg at h1
    have hc : rm.total_capital_usd * (rm.max_total_exposure_pct / 100) =
        rm.max_total_exposure_pct / 100 * rm.total_capital_usd := mul_comm _ _
    show rm.get_total_exposure + req ≤ _
    linarith

/-- Witness for C2 at a concrete state: capital 10000, cap 80 percent,
no open positions, request 500. -/
theorem C2_allocate_respects_exposure_cap_witness :
    RiskManager.get_total_exposure ⟨10000, 10, 20, 80, [], []⟩ +
      CapitalAllocation.allocated_usd ⟨"opp1", StrategyType.MARKET_REBALANCING, 500, 1000, 5, 0⟩ ≤
      (80 : ℚ) / 100 * 10000 :=
  C2_allocate_respects_exposure_cap ⟨10000, 10, 20, 80, [], []⟩ "opp1"
    StrategyType.MARKET_REBALANCING 500 0
    ⟨"opp1", StrategyType.MARKET_REBALANCING, 500, 1000, 5, 0⟩
    ⟨10000, 10, 20, 80, [], [⟨"opp1", StrategyType.MARKET_REBALANCING, 500, 1000, 5, 0⟩]⟩
    (by norm_num [RiskManager.allocate_capital, RiskManager.get_total_exposure])

/-- The decision returned by `allocate_capital` depends only on the
positions map and the capital configuration, not on the allocation
history. -/
lemma allocate_capital_fst_congr (rm rm2 : RiskManager)
    (hcap : rm2.total_capital_usd = rm.total_capital_usd)
    (hmp : rm2.max_position_size_pct = rm.max_position_size_pct)
    (hmt : rm2.max_total_exposure_pct = rm.max_total_exposure_pct)
    (hpos : rm2.positions = rm.positions)
    (oid : String) (st : StrategyType) (req now : ℚ) :
    (rm2.allocate_capital oid st req now).1 = (rm.allocate_capital oid st req now).1 := by
  simp only [RiskManager.allocate_capital, RiskManager.get_total_exposure,
    hcap, hmp, hmt, hpos]
  split_ifs <;> rfl

/-- C10: `allocate_capital` reserves nothing — the positions map and
the total open exposure are unchanged, an approval only appends the
allocation to `capital_allocations`, and a second allocation issued on
the resulting state is decided exactly as it would have been on the
original state. -/
theorem C10_allocate_does_not_reserve_capital
    (rm : RiskManager) (oid oid2 : String) (st st2 : StrategyType)
    (req req2 now now2 : ℚ) :
    (rm.allocate_capital oid st req now).2.positions = rm.positions ∧
    (rm.allocate_capital oid st req now).2.get_total_exposure = rm.get_total_exposure ∧
    (∀ a, (rm.allocate_capital oid st req now).1 = AllocResult.approved a →
      (rm.allocate_capital oid st req now).2.capital_allocations =
        rm.capital_allocations ++ [a]) ∧
    ((rm.allocate_capital oid st req now).2.allocate_capital oid2 st2 req2 now2).1 =
      (rm.allocate_capital oid2 st2 req2 now2).1 := by
  have hpos : (rm.allocate_capital oid st req now).2.positions = rm.positions := by
    simp only [RiskManager.allocate_capital]
    split_ifs <;> rfl
  have hcap : (rm.allocate_capital oid st req now).2.total_capital_usd = rm.total_capital_usd := by
    simp only [RiskManager.allocate_capital]
    split_ifs <;> rfl
  have hmp : (rm.allocate_capital oid st req now).2.max_position_size_pct =
      rm.max_position_size_pct := by
    simp only [RiskManager.allocate_capital]
    split_ifs <;> rfl
  have hmt : (rm.allocate_capital oid st req now).2.max_total_exposure_pct =
      rm.max_total_exposure_pct := by
    simp only [RiskManager.allocate_capital]
    split_ifs <;> rfl
  refine ⟨hpos, ?_, ?_, ?_⟩
  · simp only [RiskManager.get_total_exposure, hpos]
  · intro a ha
    simp only [RiskManager.allocate_capital] at ha ⊢
    split_ifs at ha ⊢ <;> injection ha with h3 <;> (subst h3; simp)
  · exact allocate_capital_fst_congr rm _ hcap hmp hmt hpos oid2 st2 req2 now2

/-- Witness for C10 at a concrete state: the implication conjunct is
discharged at the approved allocation of the 500 USD request. -/
theorem C10_allocate_does_not_reserve_capital_witness :
    (RiskManager.allocate_capital ⟨10000, 10, 20, 80, [], []⟩ "opp1"
        StrategyType.MARKET_REBALANCING 500 0).2.capital_allocations =
      [⟨"opp1", StrategyType.MARKET_REBALANCING, 500, 1000, 5, 0⟩] :=
  (C10_allocate_does_not_reserve_capital ⟨10000, 10, 20, 80, [], []⟩ "opp1" "opp2"
      StrategyType.MARKET_REBALANCING StrategyType.COMBINATORIAL 500 700 0 1).2.2.1
    ⟨"opp1", StrategyType.MARKET_REBALANCING, 500, 1000, 5, 0⟩
    (by norm_num [RiskManager.allocate_capital, RiskManager.get_total_exposure])

/-- C3 counterexample: capital 10000, position-size cap 10 percent
(1000 USD), total-exposure cap 80 percent with 7500 USD already open
(remaining capacity 500 USD).  A 2000 USD request fails the
position-size check of the claim-stated first position, yet the code
rejects it with the insufficient-capacity reason, because
`allocate_capital` tests remaining capacity before the position-size
limit. -/
theorem C3_check_order_counterexample :
    (2000 : ℚ) > 10000 * ((10 : ℚ) / 100) ∧
    (RiskManager.allocate_capital
        ⟨10000, 10, 20, 80,
          [("p1", ⟨"p1", "m1", none, StrategyType.MARKET_REBALANCING, "BUY",
            7500, 1/2, none, PositionStatus.OPEN, 0, none, 0, 0, 0⟩)], []⟩
        "opp" StrategyType.MARKET_REBALANCING 2000 0).1 =
      AllocResult.rejectedCapacity := by
  constructor
  · norm_num
  · norm_num [RiskManager.allocate_capital, RiskManager.get_total_exposure]

/-- C3 amended: `allocate_capital` checks remaining total-exposure
capacity first and the position-size limit second; the first failing
check determines the rejection reason; an approval allocates exactly
the requested amount in full; the 50-percent-of-depth
liquidity cap is applied only by `calculate_position_size`, not by
`allocate_capital`. -/
theorem C3_amended_check_order
    (rm : RiskManager) (oid : String) (st : StrategyType) (req now : ℚ) :
    (req > rm.total_capital_usd * (rm.max_total_exposure_pct / 100) - rm.get_total_exposure →
      (rm.allocate_capital oid st req now).1 = AllocResult.rejectedCapacity) ∧
    (req ≤ rm.total_capital_usd * (rm.max_total_exposure_pct / 100) - rm.get_total_exposure →
      req > rm.total_capital_usd * (rm.max_position_size_pct / 100) →
      (rm.allocate_capital oid st req now).1 = AllocResult.rejectedPositionSize) ∧
    (req ≤ rm.total_capital_usd * (rm.max_total_exposure_pct / 100) - rm.get_total_exposure →
      req ≤ rm.total_capital_usd * (rm.max_position_size_pct / 100) →
      ∃ a, (rm.allocate_capital oid st req now).1 = AllocResult.approved a ∧
        a.allocated_usd = req) ∧
    (∀ liq : ℚ, 0 < liq →
      rm.calculate_position_size (some liq) none ≤ liq * (1 / 2)) := by
  refine ⟨?_, ?_, ?_, ?_⟩
  · intro h
    simp only [RiskManager.allocate_capital]
    rw [if_pos h]
  · intro h1 h2
    simp only [RiskManager.allocate_capital]
    rw [if_neg (by linarith), if_pos h2]
  · intro h1 h2
    simp only [RiskManager.allocate_capital]
    rw [if_neg (by linarith), if_neg (by linarith)]
    exact ⟨_, rfl, rfl⟩
  · intro liq hliq
    simp only [RiskManager.calculate_position_size]
    split_ifs with h0 h1
    · linarith
    · exact absurd h1 hliq.ne'
    · exact le_trans (min_le_left _ _) (min_le_right _ _)

/-- Witness for C3 amended: the approval branch at a concrete state,
and the liquidity cap at depth 600. -/
theorem C3_amended_check_order_witness :
    (∃ a, (RiskManager.allocate_capital ⟨10000, 10, 20, 80, [], []⟩ "o"
        StrategyType.MARKET_REBALANCING 500 0).1 = AllocResult.approved a ∧
      a.allocated_usd = 500) ∧
    RiskManager.calculate_position_size ⟨10000, 10, 20, 80, [], []⟩ (some 600) none ≤
      600 * ((1 : ℚ) / 2) :=
  ⟨(C3_amended_check_order ⟨10000, 10, 20, 80, [], []⟩ "o"
      StrategyType.MARKET_REBALANCING 500 0).2.2.1
      (by norm_num [RiskManager.get_total_exposure])
      (by norm_num),
   (C3_amended_check_order ⟨10000, 10, 20, 80, [], []⟩ "o"
      StrategyType.MARKET_REBALANCING 500 0).2.2.2 600 (by norm_num)⟩

/-- C9: every platform fee schedule (polymarket with and without the
winner assumption, kalshi at any fixed contract price, pnp, the
unknown-venue fallback, and the `ProfitCalculator` fee functions) is
monotonically non-decreasing in position size. -/
theorem C9_platform_fees_monotone
    (platform : String) (contract_price : Option ℚ) (is_winner : Bool)
    (s1 s2 : ℚ) (h : s1 ≤ s2) :
    EnhancedFeeCalculator.calculate_platform_fees s1 platform contract_price is_winner ≤
      EnhancedFeeCalculator.calculate_platform_fees s2 platform contract_price is_winner ∧
    ProfitCalculator.calculate_polymarket_fees s1 ≤
      ProfitCalculator.calculate_polymarket_fees s2 ∧
    ∀ cprice : ℚ, ProfitCalculator.calculate_kalshi_fees s1 cprice ≤
      ProfitCalculator.calculate_kalshi_fees s2 cprice := by
  refine ⟨?_, ?_, ?_⟩
  · simp only [EnhancedFeeCalculator.calculate_platform_fees]
    split_ifs <;> linarith
  · simp only [ProfitCalculator.calculate_polymarket_fees]
    linarith
  · intro cprice
    simp only [ProfitCalculator.calculate_kalshi_fees]
    split_ifs <;> linarith

/-- Witness for C9 at sizes 50 and 100 on the pnp schedule. -/
theorem C9_platform_fees_monotone_witness :
    (50 : ℚ) ≤ 100 ∧
    EnhancedFeeCalculator.calculate_platform_fees 50 "pnp" none true ≤
      EnhancedFeeCalculator.calculate_platform_fees 100 "pnp" none true :=
  ⟨by norm_num, (C9_platform_fees_monotone "pnp" none true 50 100 (by norm_num)).1⟩

/-- C5: in both analyzers the produced analysis is profitable exactly
when its net profit percentage is at least the configured minimum
margin, with boundary equality counting as profitable (the comparison
is greater-or-equal).  The hypothesis `max pa pb ≠ 0` restricts the
enhanced analyzer to inputs on which the source, which divides by
that maximum, actually returns. -/
theorem C5_is_profitable_iff_margin
    (c : EnhancedFeeCalculator) (pa pb : ℚ)
    (oba obb : Option OrderbookSnapshot) (size : ℚ) (platA platB : String) :
    (max pa pb ≠ 0 →
      ((c.analyze_profitability pa pb oba obb size platA platB).is_profitable = true ↔
        (c.analyze_profitability pa pb oba obb size platA platB).net_profit_pct ≥
          c.min_profit_margin_pct)) ∧
    ∀ (pc : ProfitCalculator) (aid : String) (ap : ℚ) (asrc : String)
      (aob : Option (List PriceLevel)) (bid : String) (bp : ℚ) (bsrc : String)
      (bob : Option (List PriceLevel)) (size2 : ℚ) (gp : Option ℚ),
      ((pc.check_arbitrage_profitability aid ap asrc aob bid bp bsrc bob size2 gp).is_profitable
          = true ↔
        (pc.check_arbitrage_profitability aid ap asrc aob bid bp bsrc bob size2 gp).net_profit_pct
          ≥ pc.min_profit_margin) := by
  constructor
  · intro hmax
    simp only [EnhancedFeeCalculator.analyze_profitability, decide_eq_true_eq]
  · intro pc aid ap asrc aob bid bp bsrc bob size2 gp
    simp only [ProfitCalculator.check_arbitrage_profitability, decide_eq_true_eq]

/-- Witness for C5 at a concrete pair of prices with no order books. -/
theorem C5_is_profitable_iff_margin_witness :
    (EnhancedFeeCalculator.analyze_profitability ⟨5/2, 1, none⟩ (52/100) (48/100)
        none none 100 "polymarket" "kalshi").is_profitable = true ↔
      (EnhancedFeeCalculator.analyze_profitability ⟨5/2, 1, none⟩ (52/100) (48/100)
        none none 100 "polymarket" "kalshi").net_profit_pct ≥ (5 : ℚ)/2 :=
  (C5_is_profitable_iff_margin ⟨5/2, 1, none⟩ (52/100) (48/100) none none 100
    "polymarket" "kalshi").1 (by norm_num)

/-- C8: at yes = 0.48, no = 0.49 with minimum deviation 0.5 percent
and no order book, the detector produces a SPLIT (buy-both)
opportunity with deviation 0.03; in general, with no order book, any
market whose deviation percent strictly exceeds the threshold is
flagged, with SPLIT when the price sum is below 1 and MERGE when it
is above 1, and the recorded deviation is the absolute distance of
the price sum from 1. -/
theorem C8_rebalancing_detector
    (fc : EnhancedFeeCalculator) (now : ℚ) :
    (MarketRebalancingStrategy.detect_opportunity (1/2) fc "m" (48/100) (49/100) none now =
      some { market_id := "m", yes_price := 48/100, no_price := 49/100,
             price_sum := 97/100, deviation := 3/100,
             rebalancing_type := RebalancingType.SPLIT,
             expected_profit_pct := 3, orderbook := none, timestamp := now }) ∧
    ∀ (min_deviation_pct : ℚ) (market_id : String) (yes no now2 : ℚ),
      |yes + no - 1| * 100 > min_deviation_pct →
      ∃ opp, MarketRebalancingStrategy.detect_opportunity min_deviation_pct fc
          market_id yes no none now2 = some opp ∧
        opp.deviation = |yes + no - 1| ∧
        (yes + no < 1 → opp.rebalancing_type = RebalancingType.SPLIT) ∧
        (yes + no > 1 → opp.rebalancing_type = RebalancingType.MERGE) := by
  constructor
  · have habs : |(48 : ℚ)/100 + 49/100 - 1| = 3/100 := by
      rw [abs_of_nonpos (by norm_num)]
      norm_num
    simp only [MarketRebalancingStrategy.detect_opportunity, habs]
    norm_num
  · intro min_deviation_pct market_id yes no now2 hdev
    simp only [MarketRebalancingStrategy.detect_opportunity]
    rw [if_neg (by linarith)]
    refine ⟨_, rfl, rfl, ?_, ?_⟩
    · intro hlt
      simp [if_pos hlt]
    · intro hgt
      simp [if_neg (by linarith : ¬(yes + no < 1))]

/-- Witness for C8: the general conjunct applied at the concrete
scenario prices. -/
theorem C8_rebalancing_detector_witness :
    ∃ opp, MarketRebalancingStrategy.detect_opportunity (1/2) ⟨5/2, 1, none⟩
        "m" (48/100) (49/100) none 0 = some opp ∧
      opp.deviation = |(48 : ℚ)/100 + 49/100 - 1| ∧
      ((48 : ℚ)/100 + 49/100 < 1 → opp.rebalancing_type = RebalancingType.SPLIT) ∧
      ((48 : ℚ)/100 + 49/100 > 1 → opp.rebalancing_type = RebalancingType.MERGE) :=
  (C8_rebalancing_detector ⟨5/2, 1, none⟩ 0).2 (1/2) "m" (48/100) (49/100) 0
    (by rw [abs_of_nonpos (by norm_num)]; norm_num)

/-- C4 counterexample: for a polymarket-vs-kalshi pair at prices 0.52
and 0.48 with no order books, size 100 USD and gas at 30 Gwei,
`ProfitCalculator.check_arbitrage_profitability` totals costs of
3.0045 USD (leg A fee 2 + default slippage 1 + one 150000-unit gas
transaction 0.0045), while the claimed formula — the platform fees of
both legs plus one gas-cost unit per leg plus the slippage of both
legs — gives 2 + 1.5 + 0.009 + 1 = 4.509 USD: the kalshi fee of
market B and the second
gas unit are never charged there. -/
theorem C4_both_legs_costs_counterexample :
    (ProfitCalculator.check_arbitrage_profitability ⟨15/1000, none⟩
        "a" (52/100) "polymarket" none "b" (48/100) "kalshi" none 100
        (some 30)).gross_spread -
      (ProfitCalculator.check_arbitrage_profitability ⟨15/1000, none⟩
        "a" (52/100) "polymarket" none "b" (48/100) "kalshi" none 100
        (some 30)).net_profit_usd ≠
    ProfitCalculator.calculate_polymarket_fees 100 +
      ProfitCalculator.calculate_kalshi_fees 100 ((48/100) * 100) +
      2 * ProfitCalculator.get_polygon_gas_cost_usd ⟨15/1000, none⟩ 150000 (some 30) +
      (100 * ((5 : ℚ)/1000) + 100 * ((5 : ℚ)/1000)) := by
  have h1 : pyLower "polymarket" = "polymarket" := by decide
  have h2 : pyLower "polymarket" ≠ "kalshi" := by decide
  have h3 : ("polymarket" : String) ≠ "kalshi" := by decide
  norm_num [ProfitCalculator.check_arbitrage_profitability,
    ProfitCalculator.calculate_polymarket_fees,
    ProfitCalculator.calculate_kalshi_fees,
    ProfitCalculator.get_polygon_gas_cost_usd, h1, h2, h3]

/-- C4 amended: for the enhanced analyzer the claim holds —
`calculate_transaction_costs` totals the platform fees of both legs,
two legs of gas (one 150000-unit gas estimate per leg, computed as
a single doubled estimate), and the slippage of both legs.
`ProfitCalculator.check_arbitrage_profitability`, by contrast, charges
only the venue fee of market A and a single 150000-unit gas cost. -/
theorem C4_amended_total_costs
    (c : EnhancedFeeCalculator) (oba obb : Option OrderbookSnapshot)
    (size : ℚ) (pa pb : String) (pra prb : Option ℚ) :
    (c.calculate_transaction_costs oba obb size pa pb pra prb).total_costs_usd =
      EnhancedFeeCalculator.calculate_platform_fees size pa pra true +
      EnhancedFeeCalculator.calculate_platform_fees size pb prb true +
      2 * (c.estimate_gas_cost 150000 none).gas_cost_usd +
      ((c.estimate_slippage oba size "BUY").slippage_usd +
        (c.estimate_slippage obb size "SELL").slippage_usd) := by
  simp only [EnhancedFeeCalculator.calculate_transaction_costs,
    EnhancedFeeCalculator.estimate_gas_cost]
  ring

/-- C1: on every execution path on which leg 1 does not end with
status FILLED (the fill listener returned false, the fill wait timed
out, the submission or a callback raised), `_submit_order` is never
called with leg 2, and the returned execution has no leg-2 order id
and is not complete. -/
theorem C1_no_leg2_unless_leg1_filled
    (env : VenueEnv) (leg1 leg2 : Order)
    (h : (AtomicExecutor.execute_arbitrage_legs env leg1 leg2).1.leg1.status ≠
      OrderStatus.FILLED) :
    (∀ o, ExecEvent.submit true o ∉
        (AtomicExecutor.execute_arbitrage_legs env leg1 leg2).2) ∧
    (AtomicExecutor.execute_arbitrage_legs env leg1 leg2).1.leg2_order_id = none ∧
    (AtomicExecutor.execute_arbitrage_legs env leg1 leg2).1.is_complete = false := by
  obtain ⟨s1, w1, t1, c1s, c1f, s2, w2, t2, c2s, c2f⟩ := env
  cases s1 <;> cases c1s <;> cases w1 <;> cases c1f <;> cases s2 <;> cases c2s <;>
    cases w2 <;> cases c2f <;>
    simp_all [AtomicExecutor.execute_arbitrage_legs]

/-- Witness for C1: an adapter on which the leg-1 fill listener
returns false. -/
theorem C1_no_leg2_unless_leg1_filled_witness :
    (∀ o, ExecEvent.submit true o ∉
        (AtomicExecutor.execute_arbitrage_legs
          ⟨some "k1", FillWaitOutcome.notFilled, 0, false, false,
            some "p1", FillWaitOutcome.filled, 0, false, false⟩
          ⟨"m1", OrderSide.BUY, 48/100, 100, "kalshi", none, OrderStatus.PENDING, 0⟩
          ⟨"m2", OrderSide.SELL, 52/100, 100, "polymarket", none, OrderStatus.PENDING, 0⟩).2) ∧
    (AtomicExecutor.execute_arbitrage_legs
        ⟨some "k1", FillWaitOutcome.notFilled, 0, false, false,
          some "p1", FillWaitOutcome.filled, 0, false, false⟩
        ⟨"m1", OrderSide.BUY, 48/100, 100, "kalshi", none, OrderStatus.PENDING, 0⟩
        ⟨"m2", OrderSide.SELL, 52/100, 100, "polymarket", none, OrderStatus.PENDING, 0⟩).1.leg2_order_id = none ∧
    (AtomicExecutor.execute_arbitrage_legs
        ⟨some "k1", FillWaitOutcome.notFilled, 0, false, false,
          some "p1", FillWaitOutcome.filled, 0, false, false⟩
        ⟨"m1", OrderSide.BUY, 48/100, 100, "kalshi", none, OrderStatus.PENDING, 0⟩
        ⟨"m2", OrderSide.SELL, 52/100, 100, "polymarket", none, OrderStatus.PENDING, 0⟩).1.is_complete = false :=
  C1_no_leg2_unless_leg1_filled
    ⟨some "k1", FillWaitOutcome.notFilled, 0, false, false,
      some "p1", FillWaitOutcome.filled, 0, false, false⟩
    ⟨"m1", OrderSide.BUY, 48/100, 100, "kalshi", none, OrderStatus.PENDING, 0⟩
    ⟨"m2", OrderSide.SELL, 52/100, 100, "polymarket", none, OrderStatus.PENDING, 0⟩
    (by simp [AtomicExecutor.execute_arbitrage_legs])

/-- C7: whenever leg 1 was submitted, the submitted-callback returned
and the wait for the leg-1 fill timed out, the executor issues exactly
one cancel, carrying the leg-1 order id, sets the leg-1 status to
CANCELLED, and returns an incomplete execution in which leg 2 was
never submitted. -/
theorem C7_leg1_timeout_cancels_and_aborts
    (env : VenueEnv) (leg1 leg2 : Order) (oid : String)
    (hs : env.submit1 = some oid)
    (hc : env.cb1_submitted_raises = false)
    (hw : env.wait1 = FillWaitOutcome.timedOut) :
    (AtomicExecutor.execute_arbitrage_legs env leg1 leg2).2 =
      [ExecEvent.submit false leg1, ExecEvent.cancel oid] ∧
    (AtomicExecutor.execute_arbitrage_legs env leg1 leg2).1.leg1.status =
      OrderStatus.CANCELLED ∧
    (AtomicExecutor.execute_arbitrage_legs env leg1 leg2).1.leg1_order_id = some oid ∧
    (AtomicExecutor.execute_arbitrage_legs env leg1 leg2).1.is_complete = false ∧
    (AtomicExecutor.execute_arbitrage_legs env leg1 leg2).1.leg2_order_id = none := by
  obtain ⟨s1, w1, t1, c1s, c1f, s2, w2, t2, c2s, c2f⟩ := env
  simp only at hs hc hw
  subst hs hc hw
  simp [AtomicExecutor.execute_arbitrage_legs]

/-- Witness for C7: an adapter whose leg-1 fill wait times out. -/
theorem C7_leg1_timeout_cancels_and_aborts_witness :
    VenueEnv.submit1 ⟨some "k1", FillWaitOutcome.timedOut, 0, false, false,
        some "p1", FillWaitOutcome.filled, 0, false, false⟩ = some "k1" ∧
    (AtomicExecutor.execute_arbitrage_legs
        ⟨some "k1", FillWaitOutcome.timedOut, 0, false, false,
          some "p1", FillWaitOutcome.filled, 0, false, false⟩
        ⟨"m1", OrderSide.BUY, 48/100, 100, "kalshi", none, OrderStatus.PENDING, 0⟩
        ⟨"m2", OrderSide.SELL, 52/100, 100, "polymarket", none, OrderStatus.PENDING, 0⟩).2 =
      [ExecEvent.submit false
          ⟨"m1", OrderSide.BUY, 48/100, 100, "kalshi", none, OrderStatus.PENDING, 0⟩,
        ExecEvent.cancel "k1"] ∧
    (AtomicExecutor.execute_arbitrage_legs
        ⟨some "k1", FillWaitOutcome.timedOut, 0, false, false,
          some "p1", FillWaitOutcome.filled, 0, false, false⟩
        ⟨"m1", OrderSide.BUY, 48/100, 100, "kalshi", none, OrderStatus.PENDING, 0⟩
        ⟨"m2", OrderSide.SELL, 52/100, 100, "polymarket", none, OrderStatus.PENDING, 0⟩).1.leg1.status =
      OrderStatus.CANCELLED :=
  ⟨rfl,
    (C7_leg1_timeout_cancels_and_aborts
      ⟨some "k1", FillWaitOutcome.timedOut, 0, false, false,
        some "p1", FillWaitOutcome.filled, 0, false, false⟩
      ⟨"m1", OrderSide.BUY, 48/100, 100, "kalshi", none, OrderStatus.PENDING, 0⟩
      ⟨"m2", OrderSide.SELL, 52/100, 100, "polymarket", none, OrderStatus.PENDING, 0⟩
      "k1" rfl rfl rfl).1,
    (C7_leg1_timeout_cancels_and_aborts
      ⟨some "k1", FillWaitOutcome.timedOut, 0, false, false,
        some "p1", FillWaitOutcome.filled, 0, false, false⟩
      ⟨"m1", OrderSide.BUY, 48/100, 100, "kalshi", none, OrderStatus.PENDING, 0⟩
      ⟨"m2", OrderSide.SELL, 52/100, 100, "polymarket", none, OrderStatus.PENDING, 0⟩
      "k1" rfl rfl rfl).2.1⟩

/-- The walk returns the accumulators plus the sums over the consumed
fills. -/
lemma fillWalk_consumed_spec (orderSize : ℚ) (ls : List (ℚ × ℚ)) :
    ∀ tf wp, fillWalk orderSize ls tf wp =
      (tf + ((consumedFills orderSize ls tf).map fun pf => pf.2).sum,
        wp + ((consumedFills orderSize ls tf).map fun pf => pf.1 * pf.2).sum) := by
  induction ls with
  | nil => intro tf wp; simp [fillWalk, consumedFills]
  | cons l ls ih =>
    intro tf wp
    by_cases h : tf ≥ orderSize
    · simp [fillWalk, consumedFills, h]
    · simp only [fillWalk, consumedFills, if_neg h]
      rw [ih]
      simp only [List.map_cons, List.sum_cons, Prod.mk.injEq]
      constructor <;> ring

/-- Every consumed fill amount is nonnegative when the book sizes
are. -/
lemma consumedFills_fill_nonneg (orderSize : ℚ) (ls : List (ℚ × ℚ))
    (hq : ∀ pq ∈ ls, 0 ≤ pq.2) :
    ∀ tf, ∀ pf ∈ consumedFills orderSize ls tf, 0 ≤ pf.2 := by
  induction ls with
  | nil => intro tf pf hpf; simp [consumedFills] at hpf
  | cons l ls ih =>
    intro tf pf hpf
    by_cases h : tf ≥ orderSize
    · simp [consumedFills, h] at hpf
    · simp only [consumedFills, if_neg h, List.mem_cons] at hpf
      rcases hpf with hpf | hpf
      · subst hpf
        exact le_min (hq l (by simp)) (by push_neg at h; linarith)
      · exact ih (fun pq hpq => hq pq (by simp [hpq])) _ pf hpf

/-- The walk consumes a strictly positive total whenever the order
size is not yet reached and some level has positive size. -/
lemma consumedFills_sum_pos (orderSize : ℚ) (ls : List (ℚ × ℚ))
    (hq : ∀ pq ∈ ls, 0 ≤ pq.2) (hex : ∃ pq ∈ ls, 0 < pq.2) :
    ∀ tf, tf < orderSize →
      0 < ((consumedFills orderSize ls tf).map fun pf => pf.2).sum := by
  induction ls with
  | nil =>
    obtain ⟨pq, hm, -⟩ := hex
    simp at hm
  | cons l ls ih =>
    intro tf htf
    have hnotge : ¬ tf ≥ orderSize := not_le.mpr htf
    simp only [consumedFills, if_neg hnotge, List.map_cons, List.sum_cons]
    have hrest : 0 ≤ ((consumedFills orderSize ls
        (tf + min l.2 (orderSize - tf))).map fun pf => pf.2).sum := by
      refine List.sum_nonneg ?_
      intro x hx
      obtain ⟨pf, hpf, rfl⟩ := List.mem_map.mp hx
      exact consumedFills_fill_nonneg orderSize ls
        (fun pq hpq => hq pq (by simp [hpq])) _ pf hpf
    by_cases hl : 0 < l.2
    · have hfill : 0 < min l.2 (orderSize - tf) := lt_min hl (by linarith)
      linarith
    · have hl0 : l.2 = 0 := le_antisymm (not_lt.mp hl) (hq l (by simp))
      have hfill : min l.2 (orderSize - tf) = 0 := by
        rw [hl0]
        exact min_eq_left (by linarith)
      obtain ⟨pq, hm, hpq⟩ := hex
      rcases List.mem_cons.mp hm with hh | hm2
      · rw [hh] at hpq
        exact absurd hpq hl
      · have hlt : tf + min l.2 (orderSize - tf) < orderSize := by
          rw [hfill]; linarith
        have hpos2 := ih (fun pq2 hpq2 => hq pq2 (by simp [hpq2]))
          ⟨pq, hm2, hpq⟩ (tf + min l.2 (orderSize - tf)) hlt
        linarith

/-- Bounds on a nonnegatively weighted sum: any interval containing
every positively weighted point contains the weighted total divided
by the weight total. -/
lemma weighted_sum_bounds (lo hi : ℚ) (L : List (ℚ × ℚ))
    (h0 : ∀ pf ∈ L, 0 ≤ pf.2)
    (hb : ∀ pf ∈ L, 0 < pf.2 → lo ≤ pf.1 ∧ pf.1 ≤ hi) :
    lo * ((L.map fun pf => pf.2).sum) ≤ (L.map fun pf => pf.1 * pf.2).sum ∧
    (L.map fun pf => pf.1 * pf.2).sum ≤ hi * ((L.map fun pf => pf.2).sum) := by
  induction L with
  | nil => simp
  | cons l L ih =>
    obtain ⟨ih1, ih2⟩ := ih (fun pf h => h0 pf (by simp [h]))
      (fun pf h => hb pf (by simp [h]))
    have hl0 : 0 ≤ l.2 := h0 l (by simp)
    simp only [List.map_cons, List.sum_cons]
    rcases eq_or_lt_of_le hl0 with hz | hpos
    · constructor <;> (rw [← hz]; ring_nf; rw [mul_comm lo, mul_comm hi] at *) <;> linarith
    · obtain ⟨hblo, hbhi⟩ := hb l (by simp) hpos
      constructor
      · have hm : lo * l.2 ≤ l.1 * l.2 := mul_le_mul_of_nonneg_right hblo hl0
        nlinarith
      · have hm : l.1 * l.2 ≤ hi * l.2 := mul_le_mul_of_nonneg_right hbhi hl0
        nlinarith

/-- The weighted average execution price produced by the walk lies in
any interval containing the prices of all consumed levels. -/
lemma walk_avg_bounds (orderSize lo hi : ℚ) (L : List (ℚ × ℚ))
    (hsize : 0 < orderSize)
    (h0 : ∀ pq ∈ L, 0 ≤ pq.2) (hex : ∃ pq ∈ L, 0 < pq.2)
    (hb : ∀ pf ∈ consumedFills orderSize L 0, 0 < pf.2 → lo ≤ pf.1 ∧ pf.1 ≤ hi) :
    0 < (fillWalk orderSize L 0 0).1 ∧
    lo ≤ (fillWalk orderSize L 0 0).2 / (fillWalk orderSize L 0 0).1 ∧
    (fillWalk orderSize L 0 0).2 / (fillWalk orderSize L 0 0).1 ≤ hi := by
  have hspec := fillWalk_consumed_spec orderSize L 0 0
  have hF : (fillWalk orderSize L 0 0).1 =
      ((consumedFills orderSize L 0).map fun pf => pf.2).sum := by
    rw [hspec]; simp
  have hP : (fillWalk orderSize L 0 0).2 =
      ((consumedFills orderSize L 0).map fun pf => pf.1 * pf.2).sum := by
    rw [hspec]; simp
  have hpos : 0 < ((consumedFills orderSize L 0).map fun pf => pf.2).sum :=
    consumedFills_sum_pos orderSize L h0 hex 0 hsize
  have hnn : ∀ pf ∈ consumedFills orderSize L 0, 0 ≤ pf.2 :=
    consumedFills_fill_nonneg orderSize L h0 0
  obtain ⟨hlo, hhi⟩ := weighted_sum_bounds lo hi _ hnn hb
  refine ⟨by rw [hF]; exact hpos, ?_, ?_⟩
  · rw [hF, hP, le_div_iff₀ hpos]
    linarith
  · rw [hF, hP, div_le_iff₀ hpos]
    linarith

/-- C6: for every non-empty order book with nonnegative sizes, at
least one positive-size level, and every positive order size, the
reported execution price of the slippage calculation lies between any
lower and upper bound enclosing the prices of the consumed levels —
in particular between the best and the worst consumed price.  Stated
for both `ProfitCalculator.calculate_slippage_cost` and the BUY side
of `EnhancedFeeCalculator.estimate_slippage`. -/
theorem C6_execution_price_within_book_bounds :
    (∀ (order_book : List PriceLevel) (order_size lo hi : ℚ),
      0 < order_size →
      (∀ l ∈ order_book, 0 ≤ l.quantity) →
      (∃ l ∈ order_book, 0 < l.quantity) →
      (∀ pf ∈ consumedFills order_size
          (order_book.map fun l => (l.price, l.quantity)) 0,
        0 < pf.2 → lo ≤ pf.1 ∧ pf.1 ≤ hi) →
      lo ≤ (ProfitCalculator.calculate_slippage_cost order_book order_size).1 ∧
      (ProfitCalculator.calculate_slippage_cost order_book order_size).1 ≤ hi) ∧
    (∀ (c : EnhancedFeeCalculator) (ob : OrderbookSnapshot)
        (order_size lo hi best : ℚ),
      0 < order_size →
      ob.best_ask = some best → best ≠ 0 →
      (∀ l ∈ ob.asks, 0 ≤ l.size) →
      (∃ l ∈ ob.asks, 0 < l.size) →
      (∀ pf ∈ consumedFills order_size (ob.asks.map fun l => (l.price, l.size)) 0,
        0 < pf.2 → lo ≤ pf.1 ∧ pf.1 ≤ hi) →
      lo ≤ (c.estimate_slippage (some ob) order_size "BUY").execution_price ∧
      (c.estimate_slippage (some ob) order_size "BUY").execution_price ≤ hi) := by
  constructor
  · intro order_book order_size lo hi hsz hnn hex hb
    have hm0 : ∀ pq ∈ (order_book.map fun l => (l.price, l.quantity)), 0 ≤ pq.2 := by
      intro pq hpq
      obtain ⟨l, hl, rfl⟩ := List.mem_map.mp hpq
      exact hnn l hl
    have hmex : ∃ pq ∈ (order_book.map fun l => (l.price, l.quantity)), 0 < pq.2 := by
      obtain ⟨l, hl, h⟩ := hex
      exact ⟨(l.price, l.quantity), List.mem_map_of_mem _ hl, h⟩
    obtain ⟨hFpos, hlo, hhi⟩ := walk_avg_bounds order_size lo hi
      (order_book.map fun l => (l.price, l.quantity)) hsz hm0 hmex hb
    cases order_book with
    | nil =>
      obtain ⟨l, hl, -⟩ := hex
      simp at hl
    | cons l0 rest =>
      simp only [ProfitCalculator.calculate_slippage_cost]
      rw [if_pos hFpos]
      exact ⟨hlo, hhi⟩
  · intro c ob order_size lo hi best hsz hba hbz hnn hex hb
    have hm0 : ∀ pq ∈ (ob.asks.map fun l => (l.price, l.size)), 0 ≤ pq.2 := by
      intro pq hpq
      obtain ⟨l, hl, rfl⟩ := List.mem_map.mp hpq
      exact hnn l hl
    have hmex : ∃ pq ∈ (ob.asks.map fun l => (l.price, l.size)), 0 < pq.2 := by
      obtain ⟨l, hl, h⟩ := hex
      exact ⟨(l.price, l.size), List.mem_map_of_mem _ hl, h⟩
    obtain ⟨hFpos, hlo, hhi⟩ := walk_avg_bounds order_size lo hi
      (ob.asks.map fun l => (l.price, l.size)) hsz hm0 hmex hb
    cases hA : ob.asks with
    | nil =>
      obtain ⟨l, hl, -⟩ := hex
      rw [hA] at hl
      simp at hl
    | cons l0 rest =>
      rw [hA] at hFpos hlo hhi
      simp only [List.map_cons] at hFpos hlo hhi
      simp [EnhancedFeeCalculator.estimate_slippage, hA, hba, hbz, hFpos.ne']
      exact ⟨hlo, hhi⟩

/-- Witness for C6: a two-level book, size 80 USD, the consumed
levels priced 0.5 and 0.6 and the reported price between them. -/
theorem C6_execution_price_within_book_bounds_witness :
    (1 : ℚ)/2 ≤ (ProfitCalculator.calculate_slippage_cost
        [⟨1/2, 50⟩, ⟨3/5, 100⟩] 80).1 ∧
    (ProfitCalculator.calculate_slippage_cost [⟨1/2, 50⟩, ⟨3/5, 100⟩] 80).1 ≤ (3 : ℚ)/5 :=
  C6_execution_price_within_book_bounds.1 [⟨1/2, 50⟩, ⟨3/5, 100⟩] 80 (1/2) (3/5)
    (by norm_num)
    (by intro l hl; fin_cases hl <;> norm_num)
    (by exact ⟨⟨1/2, 50⟩, by norm_num, by norm_num⟩)
    (by
      intro pf hpf h
      simp only [List.map_cons, List.map_nil, consumedFills] at hpf
      norm_num at hpf
      rcases hpf with h1 | h2
      · rw [h1]; norm_num
      · rw [h2]; norm_num)
